import Mathlib

/-!
Verification of the habit-scheduling domain model and invariant layer of the
reborn-habit-tracker repository: enumerated domains, type guards, invariant
validators, and the default preference table, embedded shallowly from the
TypeScript source, with each specified property settled as a theorem.
-/

/-- Enumerated time-of-day windows, mirroring the TimeWindow string enum. -/
inductive TimeWindow
  | EARLY_MORNING
  | MORNING
  | AFTERNOON
  | EVENING
  | NIGHT
  | ANY
deriving DecidableEq, Repr

/-- The string value each TimeWindow enum member carries in the source. -/
def TimeWindow.str : TimeWindow → String
  | .EARLY_MORNING => "EARLY_MORNING"
  | .MORNING => "MORNING"
  | .AFTERNOON => "AFTERNOON"
  | .EVENING => "EVENING"
  | .NIGHT => "NIGHT"
  | .ANY => "ANY"

/-- All TimeWindow members in declaration order (Object.values order). -/
def allTimeWindows : List TimeWindow :=
  [.EARLY_MORNING, .MORNING, .AFTERNOON, .EVENING, .NIGHT, .ANY]

/-- Check-in quality ratings, mirroring the QualityRating numeric enum. -/
inductive QualityRating
  | FAIL
  | HARD
  | GOOD
  | EASY
deriving DecidableEq, Repr

/-- The numeric value each QualityRating enum member carries in the source. -/
def QualityRating.val : QualityRating → Nat
  | .FAIL => 0
  | .HARD => 1
  | .GOOD => 2
  | .EASY => 3

/-- Numerical-integration methods, mirroring the IntegrationMethod enum. -/
inductive IntegrationMethod
  | EULER
  | RK4
deriving DecidableEq, Repr

/-- The string value each IntegrationMethod member carries in the source. -/
def IntegrationMethod.str : IntegrationMethod → String
  | .EULER => "Euler"
  | .RK4 => "RK4"

/-- Notification channels, mirroring the NotificationChannel string enum. -/
inductive NotificationChannel
  | EMAIL
  | PUSH
  | IN_APP
deriving DecidableEq, Repr

/-- The string value each NotificationChannel member carries in the source. -/
def NotificationChannel.str : NotificationChannel → String
  | .EMAIL => "email"
  | .PUSH => "push"
  | .IN_APP => "in-app"

/-- All NotificationChannel members in declaration order. -/
def allNotificationChannels : List NotificationChannel := [.EMAIL, .PUSH, .IN_APP]

/-- Type guard isTimeWindow: Object.values(TimeWindow).includes(value). -/
def isTimeWindow (value : String) : Bool :=
  (allTimeWindows.map TimeWindow.str).contains value

/-- Type guard isQualityRating: value is between 0 and 3 and an integer.
JavaScript numbers are modelled as rationals; Number.isInteger(v) holds
exactly when the denominator is 1. -/
def isQualityRating (value : ℚ) : Bool :=
  decide (0 ≤ value) && decide (value ≤ 3) && decide (value.den = 1)

/-- Type guard isIntegrationMethod: value is "Euler" or "RK4". -/
def isIntegrationMethod (value : String) : Bool :=
  value == "Euler" || value == "RK4"

/-- Type guard isNotificationChannel: membership in the enum value list. -/
def isNotificationChannel (value : String) : Bool :=
  (allNotificationChannels.map NotificationChannel.str).contains value

/-- Type guard isDayOfWeek: value is between 0 and 6 and an integer. -/
def isDayOfWeek (value : ℚ) : Bool :=
  decide (0 ≤ value) && decide (value ≤ 6) && decide (value.den = 1)

lemma den_one_iff_intCast (v : ℚ) : v.den = 1 ↔ ∃ n : ℤ, v = (n : ℚ) := by
  constructor
  · intro h
    exact ⟨v.num, ((Rat.den_eq_one_iff v).mp h).symm⟩
  · rintro ⟨n, rfl⟩
    exact Rat.den_intCast n

/-- C6: each enumerated-domain membership predicate is a total boolean
test accepting exactly the members of its fixed vocabulary: isQualityRating
holds exactly on integers between 0 and 3 (so 7 is rejected), isDayOfWeek
exactly on integers between 0 and 6, and the three string predicates
exactly on the string values of their respective enums. -/
theorem membership_predicates_characterization :
    (∀ s : String, isTimeWindow s = true ↔ ∃ w : TimeWindow, TimeWindow.str w = s) ∧
    (∀ v : ℚ, isQualityRating v = true ↔ ((∃ n : ℤ, v = (n : ℚ)) ∧ 0 ≤ v ∧ v ≤ 3)) ∧
    isQualityRating 7 = false ∧
    (∀ v : ℚ, isDayOfWeek v = true ↔ ((∃ n : ℤ, v = (n : ℚ)) ∧ 0 ≤ v ∧ v ≤ 6)) ∧
    (∀ s : String, isIntegrationMethod s = true ↔
      ∃ m : IntegrationMethod, IntegrationMethod.str m = s) ∧
    (∀ s : String, isNotificationChannel s = true ↔
      ∃ c : NotificationChannel, NotificationChannel.str c = s) := by
  refine ⟨?_, ?_, ?_, ?_, ?_, ?_⟩
  · intro s
    constructor
    · intro h
      simp only [isTimeWindow, allTimeWindows, List.map_cons, List.map_nil] at h
      simp at h
      rcases h with h | h | h | h | h | h
      · exact ⟨.EARLY_MORNING, h.symm⟩
      · exact ⟨.MORNING, h.symm⟩
      · exact ⟨.AFTERNOON, h.symm⟩
      · exact ⟨.EVENING, h.symm⟩
      · exact ⟨.NIGHT, h.symm⟩
      · exact ⟨.ANY, h.symm⟩
    · rintro ⟨w, rfl⟩
      cases w <;> decide
  · intro v
    simp only [isQualityRating, Bool.and_eq_true, decide_eq_true_eq,
      ← den_one_iff_intCast]
    constructor
    · rintro ⟨⟨h0, h3⟩, hd⟩
      exact ⟨hd, h0, h3⟩
    · rintro ⟨hd, h0, h3⟩
      exact ⟨⟨h0, h3⟩, hd⟩
  · simp [isQualityRating]
    norm_num
  · intro v
    simp only [isDayOfWeek, Bool.and_eq_true, decide_eq_true_eq,
      ← den_one_iff_intCast]
    constructor
    · rintro ⟨⟨h0, h6⟩, hd⟩
      exact ⟨hd, h0, h6⟩
    · rintro ⟨hd, h0, h6⟩
      exact ⟨⟨h0, h6⟩, hd⟩
  · intro s
    constructor
    · intro h
      simp only [isIntegrationMethod, Bool.or_eq_true, beq_iff_eq] at h
      rcases h with h | h
      · exact ⟨.EULER, h.symm⟩
      · exact ⟨.RK4, h.symm⟩
    · rintro ⟨m, rfl⟩
      cases m <;> decide
  · intro s
    constructor
    · intro h
      simp only [isNotificationChannel, allNotificationChannels,
        List.map_cons, List.map_nil] at h
      simp at h
      rcases h with h | h | h
      · exact ⟨.EMAIL, h.symm⟩
      · exact ⟨.PUSH, h.symm⟩
      · exact ⟨.IN_APP, h.symm⟩
    · rintro ⟨c, rfl⟩
      cases c <;> decide

/-- A JavaScript value held in the optional, nullable qualityRating field of
a Partial CheckIn: absent (undefined), null, or an actual rating number. -/
inductive QualityVal
  | undefined
  | null
  | rating (q : QualityRating)
deriving DecidableEq, Repr

/-- Embeds the qualityRating of a fully-formed CheckIn (rating or null). -/
def QualityVal.ofOption : Option QualityRating → QualityVal
  | none => QualityVal.null
  | some q => QualityVal.rating q

/-- validateCheckIn over a Partial CheckIn: the success field may be absent
(`none`), and qualityRating may be undefined, null, or a rating.  Mirrors the
source: a strict comparison success === false selects the failed branch,
which accepts null or FAIL (the number 0); the successful branch requires
typeof qualityRating === "number" and 1 ≤ value ≤ 3; anything else is
rejected. -/
def validateCheckIn (success : Option Bool) (qualityRating : QualityVal) : Bool :=
  if success = some false then
    decide (qualityRating = QualityVal.null) ||
      decide (qualityRating = QualityVal.rating QualityRating.FAIL)
  else
    match success, qualityRating with
    | some true, QualityVal.rating q => decide (1 ≤ q.val) && decide (q.val ≤ 3)
    | _, _ => false

/-- C1: over fully-formed check-ins (success a boolean, qualityRating a
rating or null), validateCheckIn accepts exactly the documented
combinations: a failed check-in carries null or FAIL, a successful one
carries HARD, GOOD or EASY; in particular the three documented examples. -/
theorem validateCheckIn_characterization :
    (∀ (s : Bool) (q : Option QualityRating),
      validateCheckIn (some s) (QualityVal.ofOption q) = true ↔
        ((s = false ∧ (q = none ∨ q = some QualityRating.FAIL)) ∨
         (s = true ∧ (q = some QualityRating.HARD ∨ q = some QualityRating.GOOD ∨
           q = some QualityRating.EASY)))) ∧
    validateCheckIn (some false) (QualityVal.ofOption none) = true ∧
    validateCheckIn (some true) (QualityVal.ofOption none) = false ∧
    validateCheckIn (some true) (QualityVal.ofOption (some QualityRating.GOOD)) = true := by
  refine ⟨?_, rfl, rfl, rfl⟩
  rintro s q
  cases s <;> rcases q with _ | q <;> (try cases q) <;>
    simp [validateCheckIn, QualityVal.ofOption, QualityRating.val]

/-- C10: a check-in whose success field is absent is rejected whatever its
qualityRating holds, and a failed check-in whose qualityRating is absent
(undefined, not null) is rejected, because the failed branch compares by
strict equality against null and FAIL only. -/
theorem validateCheckIn_undefined_fields :
    (∀ q : QualityVal, validateCheckIn none q = false) ∧
    validateCheckIn (some false) QualityVal.undefined = false := by
  refine ⟨?_, rfl⟩
  rintro (_ | _ | q) <;> simp [validateCheckIn]

/-- A ScheduledSlot record: one habit's placement within a schedule, times
as minutes since midnight. -/
structure ScheduledSlot where
  slotID : String
  scheduleID : String
  habitID : String
  startTime : Int
  endTime : Int
deriving DecidableEq, Repr

/-- A Habit record, mirroring the Habit interface of the source. -/
structure Habit where
  habitID : String
  userID : String
  name : String
  duration : Int
  priority : Nat
  difficulty : Nat
  preferredTimeWindows : List TimeWindow
  easinessFactor : ℚ
  interval : Nat
  repetitions : Nat
  streak : Nat
  createdDate : String
deriving DecidableEq, Repr

/-- validateSlotDuration: endTime minus startTime strictly equals the
habit's configured duration. -/
def validateSlotDuration (slot : ScheduledSlot) (habit : Habit) : Bool :=
  slot.endTime - slot.startTime == habit.duration

/-- The pair test inside validateNoSlotOverlap's double loop: the two
slots do not overlap when one ends before or exactly when the other starts. -/
def noOverlapPair (s1 s2 : ScheduledSlot) : Bool :=
  decide (s1.endTime ≤ s2.startTime) || decide (s2.endTime ≤ s1.startTime)

/-- validateNoSlotOverlap: the source's double loop over index pairs i < j,
returning false as soon as some pair overlaps. -/
def validateNoSlotOverlap : List ScheduledSlot → Bool
  | [] => true
  | s :: rest => rest.all (fun t => noOverlapPair s t) && validateNoSlotOverlap rest

/-- The half-open intervals of the two slots intersect: some instant lies
at or after each startTime and strictly before each endTime. -/
def SlotsOverlap (s1 s2 : ScheduledSlot) : Prop :=
  ∃ t : ℤ, s1.startTime ≤ t ∧ t < s1.endTime ∧ s2.startTime ≤ t ∧ t < s2.endTime

lemma noOverlapPair_iff (s1 s2 : ScheduledSlot)
    (h1 : s1.startTime < s1.endTime) (h2 : s2.startTime < s2.endTime) :
    noOverlapPair s1 s2 = true ↔ ¬ SlotsOverlap s1 s2 := by
  simp only [noOverlapPair, Bool.or_eq_true, decide_eq_true_eq, SlotsOverlap, not_exists]
  constructor
  · rintro h t ⟨ht1, ht2, ht3, ht4⟩
    omega
  · intro h
    by_contra hc
    push_neg at hc
    rcases le_total s1.startTime s2.startTime with hle | hle
    · exact h s2.startTime ⟨hle, hc.1, le_refl _, h2⟩
    · exact h s1.startTime ⟨le_refl _, h1, hle, hc.2⟩

lemma validateNoSlotOverlap_iff (slots : List ScheduledSlot)
    (h : ∀ s ∈ slots, s.startTime < s.endTime) :
    validateNoSlotOverlap slots = true ↔
      List.Pairwise (fun a b => ¬ SlotsOverlap a b) slots := by
  induction slots with
  | nil => simp [validateNoSlotOverlap]
  | cons s rest ih =>
    simp only [validateNoSlotOverlap, Bool.and_eq_true, List.all_eq_true,
      List.pairwise_cons]
    have hs : s.startTime < s.endTime := h s (List.mem_cons_self _ _)
    have hrest : ∀ x ∈ rest, x.startTime < x.endTime :=
      fun x hx => h x (List.mem_cons_of_mem _ hx)
    rw [ih hrest]
    constructor
    · rintro ⟨hall, hpw⟩
      exact ⟨fun b hb => (noOverlapPair_iff s b hs (hrest b hb)).mp (hall b hb), hpw⟩
    · rintro ⟨hall, hpw⟩
      exact ⟨fun b hb => (noOverlapPair_iff s b hs (hrest b hb)).mpr (hall b hb), hpw⟩

/-- The documented example slot from 08:00 to 08:30. -/
def slot480510 : ScheduledSlot := ⟨"s1", "sch1", "h1", 480, 510⟩

/-- The documented back-to-back example slot from 08:30 to 09:00. -/
def slot510540 : ScheduledSlot := ⟨"s2", "sch1", "h2", 510, 540⟩

/-- The documented overlapping example slot from 08:20 to 08:40. -/
def slot500520 : ScheduledSlot := ⟨"s3", "sch1", "h3", 500, 520⟩

/-- An example habit with the given duration. -/
def habitDur (d : Int) : Habit :=
  ⟨"h1", "u1", "stretch", d, 3, 3, [], 2.5, 1, 0, 0, "2024-01-01"⟩

/-- C2: over collections of well-formed slots (each spanning at least one
minute), validateNoSlotOverlap accepts exactly the collections in which no
two distinct slots' half-open intervals intersect; a slot ending exactly
when another starts is not an overlap, as the two documented examples show. -/
theorem validateNoSlotOverlap_characterization :
    (∀ (slots : List ScheduledSlot), (∀ s ∈ slots, s.startTime < s.endTime) →
      (validateNoSlotOverlap slots = true ↔
        List.Pairwise (fun a b => ¬ SlotsOverlap a b) slots)) ∧
    validateNoSlotOverlap [slot480510, slot510540] = true ∧
    validateNoSlotOverlap [slot480510, slot500520] = false :=
  ⟨validateNoSlotOverlap_iff, by decide, by decide⟩

/-- Witness for C2 at the back-to-back pair: the hypothesis holds there and
the theorem converts the computed true into pairwise non-intersection. -/
theorem validateNoSlotOverlap_characterization_witness :
    List.Pairwise (fun a b => ¬ SlotsOverlap a b) [slot480510, slot510540] :=
  (validateNoSlotOverlap_characterization.1 [slot480510, slot510540]
    (by decide)).mp (by decide)

/-- C3: validateSlotDuration accepts exactly when the slot's span equals
the habit's duration, with no tolerance; the 30-minute example slot
validates against duration 30 and fails against 25. -/
theorem validateSlotDuration_characterization :
    (∀ (slot : ScheduledSlot) (habit : Habit),
      validateSlotDuration slot habit = true ↔
        slot.endTime - slot.startTime = habit.duration) ∧
    validateSlotDuration slot480510 (habitDur 30) = true ∧
    validateSlotDuration slot480510 (habitDur 25) = false := by
  refine ⟨?_, by decide, by decide⟩
  intro slot habit
  simp [validateSlotDuration]

/-- Fifty-one pairwise disjoint 15-minute slots, all inside one day. -/
def slots51 : List ScheduledSlot :=
  (List.range 51).map (fun i => ⟨"s", "sch1", "h1", 15 * (i : Int), 15 * (i : Int) + 15⟩)

/-- C7 counterexample: a schedule of 51 slots is a structural conflict, yet
no validator of the core reports it — the 51 disjoint slots pass
validateNoSlotOverlap, and each slot passes validateSlotDuration against a
15-minute habit; no validator checks the 50-slot cap. -/
theorem slotCap_not_validated :
    slots51.length = 51 ∧ validateNoSlotOverlap slots51 = true ∧
      slots51.all (fun s => validateSlotDuration s (habitDur 15)) = true :=
  ⟨by decide, by decide, by decide⟩

/-- C7 amended: of the structural conflicts, overlapping slots are detected
synchronously — validateNoSlotOverlap returns false, without throwing, on
any well-formed collection containing an intersecting pair — but the
50-slot cap is not checked by any validator: a collection of 51 pairwise
disjoint slots passes. -/
theorem structuralConflict_detection :
    (∀ (slots : List ScheduledSlot), (∀ s ∈ slots, s.startTime < s.endTime) →
      ¬ List.Pairwise (fun a b => ¬ SlotsOverlap a b) slots →
      validateNoSlotOverlap slots = false) ∧
    (slots51.length > 50 ∧ validateNoSlotOverlap slots51 = true) := by
  constructor
  · intro slots h hover
    cases hb : validateNoSlotOverlap slots
    · rfl
    · exact absurd ((validateNoSlotOverlap_iff slots h).mp hb) hover
  · exact ⟨by decide, by decide⟩

/-- Witness for the amended C7 at the overlapping example pair. -/
theorem structuralConflict_detection_witness :
    validateNoSlotOverlap [slot480510, slot500520] = false :=
  structuralConflict_detection.1 [slot480510, slot500520] (by decide)
    (fun hpw => (List.pairwise_cons.mp hpw).1 slot500520 (by simp)
      (by refine ⟨500, ?_, ?_, ?_, ?_⟩ <;> decide))

/-- First-occurrence duplicate removal, the behaviour of
Array.from(new Set(xs)) on a JavaScript array: iteration order of a Set is
insertion order, so each element keeps its first position. -/
def dedupFirst {α : Type} [DecidableEq α] : List α → List α
  | [] => []
  | w :: rest => w :: (dedupFirst rest).filter (fun x => x ≠ w)

lemma mem_dedupFirst {α : Type} [DecidableEq α] (x : α) (l : List α) :
    x ∈ dedupFirst l ↔ x ∈ l := by
  induction l with
  | nil => simp [dedupFirst]
  | cons w rest ih =>
    simp only [dedupFirst, List.mem_cons, List.mem_filter, ih]
    constructor
    · rintro (rfl | ⟨hx, _⟩)
      · exact Or.inl rfl
      · exact Or.inr hx
    · rintro (rfl | hx)
      · exact Or.inl rfl
      · by_cases hxw : x = w
        · exact Or.inl hxw
        · exact Or.inr ⟨hx, by simpa using hxw⟩

lemma nodup_dedupFirst {α : Type} [DecidableEq α] (l : List α) :
    (dedupFirst l).Nodup := by
  induction l with
  | nil => simp [dedupFirst]
  | cons w rest ih =>
    refine List.Nodup.cons ?_ (List.Nodup.filter _ ih)
    intro hw
    rcases List.mem_filter.mp hw with ⟨_, hne⟩
    simp at hne

lemma dedupFirst_eq_self {α : Type} [DecidableEq α] (l : List α)
    (h : l.Nodup) : dedupFirst l = l := by
  induction l with
  | nil => rfl
  | cons w rest ih =>
    rcases List.nodup_cons.mp h with ⟨hw, hrest⟩
    simp only [dedupFirst, ih hrest, List.cons.injEq, true_and]
    exact List.filter_eq_self.mpr (fun x hx => by
      simp only [ne_eq, decide_eq_true_eq]
      exact fun hxw => hw (hxw ▸ hx))

lemma dedupFirst_ne_nil {α : Type} [DecidableEq α] (l : List α)
    (h : l ≠ []) : dedupFirst l ≠ [] := by
  cases l with
  | nil => exact absurd rfl h
  | cons w rest => simp [dedupFirst]

/-- validateTimeWindow: an empty input yields the singleton ANY; otherwise
duplicates are removed via a Set, and if ANY is among the unique values the
result collapses to the singleton ANY. -/
def validateTimeWindow (windows : List TimeWindow) : List TimeWindow :=
  if windows.length = 0 then [TimeWindow.ANY]
  else if TimeWindow.ANY ∈ dedupFirst windows then [TimeWindow.ANY]
  else dedupFirst windows

/-- The canonical window set as the specification words it: the empty set
defaults to the singleton ANY, a set containing ANY collapses to the
singleton ANY, and any other set is returned as is. -/
def specCanonicalWindows (s : Finset TimeWindow) : Finset TimeWindow :=
  if s = ∅ then {TimeWindow.ANY}
  else if TimeWindow.ANY ∈ s then {TimeWindow.ANY} else s

/-- C4: validateTimeWindow produces the canonical set of the input's
underlying set: its output has no duplicates, the empty input yields
exactly the singleton ANY, any input containing ANY yields exactly the
singleton ANY, the output's underlying set is the spec's canonical set of
the input's underlying set, and as a set the result is invariant under
permutation of the input. -/
theorem validateTimeWindow_canonical :
    (∀ l : List TimeWindow, (validateTimeWindow l).Nodup) ∧
    validateTimeWindow [] = [TimeWindow.ANY] ∧
    (∀ l : List TimeWindow, TimeWindow.ANY ∈ l →
      validateTimeWindow l = [TimeWindow.ANY]) ∧
    (∀ l : List TimeWindow,
      (validateTimeWindow l).toFinset = specCanonicalWindows l.toFinset) ∧
    (∀ l1 l2 : List TimeWindow, l1.Perm l2 →
      (validateTimeWindow l1).toFinset = (validateTimeWindow l2).toFinset) := by
  have hnodup : ∀ l : List TimeWindow, (validateTimeWindow l).Nodup := by
    intro l
    unfold validateTimeWindow
    split
    · simp
    · split
      · simp
      · exact nodup_dedupFirst l
  have hany : ∀ l : List TimeWindow, TimeWindow.ANY ∈ l →
      validateTimeWindow l = [TimeWindow.ANY] := by
    intro l hl
    unfold validateTimeWindow
    split
    · rfl
    · rw [if_pos ((mem_dedupFirst _ _).mpr hl)]
  have hcanon : ∀ l : List TimeWindow,
      (validateTimeWindow l).toFinset = specCanonicalWindows l.toFinset := by
    intro l
    unfold validateTimeWindow specCanonicalWindows
    rcases l with _ | ⟨w, rest⟩
    · simp
    · have hne : (w :: rest).toFinset ≠ ∅ := by simp
      rw [if_neg (by simp), if_neg hne]
      by_cases hmem : TimeWindow.ANY ∈ dedupFirst (w :: rest)
      · rw [if_pos hmem, if_pos (by simpa [mem_dedupFirst] using hmem)]
        simp
      · rw [if_neg hmem, if_neg (by simpa [mem_dedupFirst] using hmem)]
        ext x
        simp [mem_dedupFirst]
  refine ⟨hnodup, rfl, hany, hcanon, ?_⟩
  intro l1 l2 hperm
  rw [hcanon l1, hcanon l2,
    List.toFinset.ext_iff.mpr (fun x => hperm.mem_iff)]

/-- Witness for C4 at a concrete input holding ANY alongside MORNING. -/
theorem validateTimeWindow_canonical_witness :
    validateTimeWindow [TimeWindow.MORNING, TimeWindow.ANY] = [TimeWindow.ANY] :=
  validateTimeWindow_canonical.2.2.1 [TimeWindow.MORNING, TimeWindow.ANY] (by decide)

/-- Scheduling preferences group, mirroring SchedulingPreferences. -/
structure SchedulingPreferences where
  dailyStartTime : String
  dailyEndTime : String
  timeSlotGranularity : Nat
deriving DecidableEq, Repr

/-- Prediction preferences group, mirroring PredictionPreferences. -/
structure PredictionPreferences where
  coldStartThreshold : Nat
  recentWindowSize : Nat
  riskThreshold : ℚ
deriving DecidableEq, Repr

/-- Adaptive-frequency preferences group, mirroring
AdaptiveFrequencyPreferences. -/
structure AdaptiveFrequencyPreferences where
  enableSM2 : Bool
  minInterval : Nat
  maxInterval : Nat
deriving DecidableEq, Repr

/-- Simulation preferences group, mirroring SimulationPreferences. -/
structure SimulationPreferences where
  enabled : Bool
  integrationMethod : IntegrationMethod
  timeStep : ℚ
deriving DecidableEq, Repr

/-- Notification preferences group, mirroring NotificationPreferences. -/
structure NotificationPreferences where
  enableInterventionAlerts : Bool
  alertThreshold : ℚ
  channels : List NotificationChannel
deriving DecidableEq, Repr

/-- The five-group user preference record, mirroring UserPreferences. -/
structure UserPreferences where
  scheduling : SchedulingPreferences
  prediction : PredictionPreferences
  adaptiveFrequency : AdaptiveFrequencyPreferences
  simulation : SimulationPreferences
  notifications : NotificationPreferences
deriving DecidableEq, Repr

/-- The fixed default preference table of the source. -/
def DEFAULT_USER_PREFERENCES : UserPreferences :=
  { scheduling :=
      { dailyStartTime := "06:00", dailyEndTime := "23:00", timeSlotGranularity := 15 }
    prediction := { coldStartThreshold := 7, recentWindowSize := 7, riskThreshold := 0.8 }
    adaptiveFrequency := { enableSM2 := true, minInterval := 1, maxInterval := 90 }
    simulation :=
      { enabled := false, integrationMethod := IntegrationMethod.EULER, timeStep := 0.05 }
    notifications :=
      { enableInterventionAlerts := true, alertThreshold := 0.8,
        channels := [NotificationChannel.IN_APP] } }

/-- C8: the default preference table carries exactly the documented values
for all five groups. -/
theorem default_preferences_values :
    DEFAULT_USER_PREFERENCES.scheduling.dailyStartTime = "06:00" ∧
    DEFAULT_USER_PREFERENCES.scheduling.dailyEndTime = "23:00" ∧
    DEFAULT_USER_PREFERENCES.scheduling.timeSlotGranularity = 15 ∧
    DEFAULT_USER_PREFERENCES.prediction.coldStartThreshold = 7 ∧
    DEFAULT_USER_PREFERENCES.prediction.recentWindowSize = 7 ∧
    DEFAULT_USER_PREFERENCES.prediction.riskThreshold = 0.8 ∧
    DEFAULT_USER_PREFERENCES.adaptiveFrequency.enableSM2 = true ∧
    DEFAULT_USER_PREFERENCES.adaptiveFrequency.minInterval = 1 ∧
    DEFAULT_USER_PREFERENCES.adaptiveFrequency.maxInterval = 90 ∧
    DEFAULT_USER_PREFERENCES.simulation.enabled = false ∧
    DEFAULT_USER_PREFERENCES.simulation.integrationMethod = IntegrationMethod.EULER ∧
    DEFAULT_USER_PREFERENCES.simulation.timeStep = 0.05 ∧
    DEFAULT_USER_PREFERENCES.notifications.enableInterventionAlerts = true ∧
    DEFAULT_USER_PREFERENCES.notifications.alertThreshold = 0.8 ∧
    DEFAULT_USER_PREFERENCES.notifications.channels = [NotificationChannel.IN_APP] :=
  ⟨rfl, rfl, rfl, rfl, rfl, rfl, rfl, rfl, rfl, rfl, rfl, rfl, rfl, rfl, rfl⟩

/-- C5: validateTimeWindow is idempotent on every input list. -/
theorem validateTimeWindow_idempotent :
    ∀ w : List TimeWindow,
      validateTimeWindow (validateTimeWindow w) = validateTimeWindow w := by
  intro w
  unfold validateTimeWindow
  split
  · rfl
  · rename_i hlen
    by_cases hmem : TimeWindow.ANY ∈ dedupFirst w
    · rw [if_pos hmem]
      rfl
    · rw [if_neg hmem]
      have hne : dedupFirst w ≠ [] :=
        dedupFirst_ne_nil w (by simpa [List.length_eq_zero] using hlen)
      rw [if_neg (by simpa [List.length_eq_zero] using hne),
        dedupFirst_eq_self _ (nodup_dedupFirst w), if_neg hmem]




/-- Checks the HH:mm wall-clock format documented for the daily start and
end times: two digits, a colon, two digits, hour below 24, minute below 60. -/
def isValidTimeFormat (s : String) : Bool :=
  match s.toList with
  | [h1, h2, c, m1, m2] =>
    h1.isDigit && h2.isDigit && (c == ':') && m1.isDigit && m2.isDigit &&
      decide ((h1.toNat - 48) * 10 + (h2.toNat - 48) < 24) &&
      decide ((m1.toNat - 48) * 10 + (m2.toNat - 48) < 60)
  | _ => false

/-- Modelled from the spec: the partial scheduling group accepted by the
Preference Resolver of section 4.2, which is absent from the source; any
subset of the three scheduling fields may be supplied. -/
structure SchedulingPatch where
  dailyStartTime : Option String
  dailyEndTime : Option String
  timeSlotGranularity : Option Nat
deriving DecidableEq, Repr

/-- Modelled from the spec: the partial prediction group. -/
structure PredictionPatch where
  coldStartThreshold : Option Nat
  recentWindowSize : Option Nat
  riskThreshold : Option ℚ
deriving DecidableEq, Repr

/-- Modelled from the spec: the partial adaptive-frequency group. -/
structure AdaptiveFrequencyPatch where
  enableSM2 : Option Bool
  minInterval : Option Nat
  maxInterval : Option Nat
deriving DecidableEq, Repr

/-- Modelled from the spec: the partial simulation group. -/
structure SimulationPatch where
  enabled : Option Bool
  integrationMethod : Option IntegrationMethod
  timeStep : Option ℚ
deriving DecidableEq, Repr

/-- Modelled from the spec: the partial notification group. -/
structure NotificationPatch where
  enableInterventionAlerts : Option Bool
  alertThreshold : Option ℚ
  channels : Option (List NotificationChannel)
deriving DecidableEq, Repr

/-- Modelled from the spec: a partial preference object — any subset of the
five preference groups, each itself partial. -/
structure UserPreferencesPatch where
  scheduling : Option SchedulingPatch
  prediction : Option PredictionPatch
  adaptiveFrequency : Option AdaptiveFrequencyPatch
  simulation : Option SimulationPatch
  notifications : Option NotificationPatch
deriving DecidableEq, Repr

/-- Modelled from the spec: field-level merge of a partial scheduling group
over the default table. -/
def resolveScheduling : Option SchedulingPatch → SchedulingPreferences
  | none => DEFAULT_USER_PREFERENCES.scheduling
  | some q =>
    { dailyStartTime := q.dailyStartTime.getD DEFAULT_USER_PREFERENCES.scheduling.dailyStartTime
      dailyEndTime := q.dailyEndTime.getD DEFAULT_USER_PREFERENCES.scheduling.dailyEndTime
      timeSlotGranularity :=
        q.timeSlotGranularity.getD DEFAULT_USER_PREFERENCES.scheduling.timeSlotGranularity }

/-- Modelled from the spec: field-level merge of a partial prediction group
over the default table. -/
def resolvePrediction : Option PredictionPatch → PredictionPreferences
  | none => DEFAULT_USER_PREFERENCES.prediction
  | some q =>
    { coldStartThreshold :=
        q.coldStartThreshold.getD DEFAULT_USER_PREFERENCES.prediction.coldStartThreshold
      recentWindowSize :=
        q.recentWindowSize.getD DEFAULT_USER_PREFERENCES.prediction.recentWindowSize
      riskThreshold := q.riskThreshold.getD DEFAULT_USER_PREFERENCES.prediction.riskThreshold }

/-- Modelled from the spec: field-level merge of a partial
adaptive-frequency group over the default table. -/
def resolveAdaptiveFrequency : Option AdaptiveFrequencyPatch → AdaptiveFrequencyPreferences
  | none => DEFAULT_USER_PREFERENCES.adaptiveFrequency
  | some q =>
    { enableSM2 := q.enableSM2.getD DEFAULT_USER_PREFERENCES.adaptiveFrequency.enableSM2
      minInterval := q.minInterval.getD DEFAULT_USER_PREFERENCES.adaptiveFrequency.minInterval
      maxInterval := q.maxInterval.getD DEFAULT_USER_PREFERENCES.adaptiveFrequency.maxInterval }

/-- Modelled from the spec: field-level merge of a partial simulation group
over the default table. -/
def resolveSimulation : Option SimulationPatch → SimulationPreferences
  | none => DEFAULT_USER_PREFERENCES.simulation
  | some q =>
    { enabled := q.enabled.getD DEFAULT_USER_PREFERENCES.simulation.enabled
      integrationMethod :=
        q.integrationMethod.getD DEFAULT_USER_PREFERENCES.simulation.integrationMethod
      timeStep := q.timeStep.getD DEFAULT_USER_PREFERENCES.simulation.timeStep }

/-- Modelled from the spec: field-level merge of a partial notification
group over the default table. -/
def resolveNotifications : Option NotificationPatch → NotificationPreferences
  | none => DEFAULT_USER_PREFERENCES.notifications
  | some q =>
    { enableInterventionAlerts :=
        q.enableInterventionAlerts.getD
          DEFAULT_USER_PREFERENCES.notifications.enableInterventionAlerts
      alertThreshold := q.alertThreshold.getD DEFAULT_USER_PREFERENCES.notifications.alertThreshold
      channels := q.channels.getD DEFAULT_USER_PREFERENCES.notifications.channels }

/-- Modelled from the spec: the Preference Resolver of section 4.2, absent
from the source, which ships only the default table — a total field-level
merge of a partial preference object over DEFAULT_USER_PREFERENCES. -/
def resolvePreferences (p : UserPreferencesPatch) : UserPreferences :=
  { scheduling := resolveScheduling p.scheduling
    prediction := resolvePrediction p.prediction
    adaptiveFrequency := resolveAdaptiveFrequency p.adaptiveFrequency
    simulation := resolveSimulation p.simulation
    notifications := resolveNotifications p.notifications }

/-- Documented bounds of the scheduling group. -/
def SchedulingInBounds (s : SchedulingPreferences) : Prop :=
  isValidTimeFormat s.dailyStartTime = true ∧ isValidTimeFormat s.dailyEndTime = true ∧
    s.timeSlotGranularity ∈ ([5, 15, 30] : List Nat)

/-- Documented bounds of the prediction group. -/
def PredictionInBounds (p : PredictionPreferences) : Prop :=
  1 ≤ p.coldStartThreshold ∧ p.coldStartThreshold ≤ 30 ∧
    3 ≤ p.recentWindowSize ∧ p.recentWindowSize ≤ 30 ∧
    0 ≤ p.riskThreshold ∧ p.riskThreshold ≤ 1

/-- Documented bounds of the adaptive-frequency group. -/
def AdaptiveInBounds (a : AdaptiveFrequencyPreferences) : Prop :=
  1 ≤ a.minInterval ∧ a.minInterval ≤ 7 ∧ 7 ≤ a.maxInterval ∧ a.maxInterval ≤ 365

/-- Documented bounds of the simulation group. -/
def SimulationInBounds (s : SimulationPreferences) : Prop :=
  (1 / 100 : ℚ) ≤ s.timeStep ∧ s.timeStep ≤ 1 / 5

/-- Documented bounds of the notification group. -/
def NotificationsInBounds (n : NotificationPreferences) : Prop :=
  0 ≤ n.alertThreshold ∧ n.alertThreshold ≤ 1

/-- Documented bounds of a fully populated preference record. -/
def PrefsInBounds (u : UserPreferences) : Prop :=
  SchedulingInBounds u.scheduling ∧ PredictionInBounds u.prediction ∧
    AdaptiveInBounds u.adaptiveFrequency ∧ SimulationInBounds u.simulation ∧
    NotificationsInBounds u.notifications

/-- Every value an optional field supplies satisfies the given bound. -/
def OptBound {α : Type} (o : Option α) (P : α → Prop) : Prop :=
  ∀ x, o = some x → P x

/-- Bounds of the supplied fields of a partial scheduling group. -/
def SchedulingPatchInBounds (q : SchedulingPatch) : Prop :=
  OptBound q.dailyStartTime (fun t => isValidTimeFormat t = true) ∧
    OptBound q.dailyEndTime (fun t => isValidTimeFormat t = true) ∧
    OptBound q.timeSlotGranularity (fun g => g ∈ ([5, 15, 30] : List Nat))

/-- Bounds of the supplied fields of a partial prediction group. -/
def PredictionPatchInBounds (q : PredictionPatch) : Prop :=
  OptBound q.coldStartThreshold (fun v => 1 ≤ v ∧ v ≤ 30) ∧
    OptBound q.recentWindowSize (fun v => 3 ≤ v ∧ v ≤ 30) ∧
    OptBound q.riskThreshold (fun v => 0 ≤ v ∧ v ≤ 1)

/-- Bounds of the supplied fields of a partial adaptive-frequency group. -/
def AdaptivePatchInBounds (q : AdaptiveFrequencyPatch) : Prop :=
  OptBound q.minInterval (fun v => 1 ≤ v ∧ v ≤ 7) ∧
    OptBound q.maxInterval (fun v => 7 ≤ v ∧ v ≤ 365)

/-- Bounds of the supplied fields of a partial simulation group. -/
def SimulationPatchInBounds (q : SimulationPatch) : Prop :=
  OptBound q.timeStep (fun v => (1 / 100 : ℚ) ≤ v ∧ v ≤ 1 / 5)

/-- Bounds of the supplied fields of a partial notification group. -/
def NotificationPatchInBounds (q : NotificationPatch) : Prop :=
  OptBound q.alertThreshold (fun v => 0 ≤ v ∧ v ≤ 1)

/-- Bounds of the supplied fields of a partial preference object. -/
def PatchInBounds (p : UserPreferencesPatch) : Prop :=
  OptBound p.scheduling SchedulingPatchInBounds ∧
    OptBound p.prediction PredictionPatchInBounds ∧
    OptBound p.adaptiveFrequency AdaptivePatchInBounds ∧
    OptBound p.simulation SimulationPatchInBounds ∧
    OptBound p.notifications NotificationPatchInBounds

lemma optBound_getD {α : Type} (o : Option α) (d : α) (P : α → Prop)
    (hd : P d) (ho : OptBound o P) : P (o.getD d) := by
  cases o with
  | none => exact hd
  | some x => exact ho x rfl

lemma resolveScheduling_inBounds (q : Option SchedulingPatch)
    (h : OptBound q SchedulingPatchInBounds) :
    SchedulingInBounds (resolveScheduling q) := by
  cases q with
  | none => exact ⟨by decide, by decide, by decide⟩
  | some r =>
    obtain ⟨h1, h2, h3⟩ := h r rfl
    exact ⟨optBound_getD _ _ _ (by decide) h1, optBound_getD _ _ _ (by decide) h2,
      optBound_getD _ _ _ (by decide) h3⟩

lemma resolvePrediction_inBounds (q : Option PredictionPatch)
    (h : OptBound q PredictionPatchInBounds) :
    PredictionInBounds (resolvePrediction q) := by
  cases q with
  | none => norm_num [PredictionInBounds, resolvePrediction, DEFAULT_USER_PREFERENCES]
  | some r =>
    obtain ⟨h1, h2, h3⟩ := h r rfl
    have hc := optBound_getD _ DEFAULT_USER_PREFERENCES.prediction.coldStartThreshold _
      (by norm_num [DEFAULT_USER_PREFERENCES]) h1
    have hr := optBound_getD _ DEFAULT_USER_PREFERENCES.prediction.recentWindowSize _
      (by norm_num [DEFAULT_USER_PREFERENCES]) h2
    have ht := optBound_getD _ DEFAULT_USER_PREFERENCES.prediction.riskThreshold _
      (by norm_num [DEFAULT_USER_PREFERENCES]) h3
    exact ⟨hc.1, hc.2, hr.1, hr.2, ht.1, ht.2⟩

lemma resolveAdaptiveFrequency_inBounds (q : Option AdaptiveFrequencyPatch)
    (h : OptBound q AdaptivePatchInBounds) :
    AdaptiveInBounds (resolveAdaptiveFrequency q) := by
  cases q with
  | none =>
    norm_num [AdaptiveInBounds, resolveAdaptiveFrequency, DEFAULT_USER_PREFERENCES]
  | some r =>
    obtain ⟨h1, h2⟩ := h r rfl
    have hmin := optBound_getD _ DEFAULT_USER_PREFERENCES.adaptiveFrequency.minInterval _
      (by norm_num [DEFAULT_USER_PREFERENCES]) h1
    have hmax := optBound_getD _ DEFAULT_USER_PREFERENCES.adaptiveFrequency.maxInterval _
      (by norm_num [DEFAULT_USER_PREFERENCES]) h2
    exact ⟨hmin.1, hmin.2, hmax.1, hmax.2⟩

lemma resolveSimulation_inBounds (q : Option SimulationPatch)
    (h : OptBound q SimulationPatchInBounds) :
    SimulationInBounds (resolveSimulation q) := by
  cases q with
  | none => norm_num [SimulationInBounds, resolveSimulation, DEFAULT_USER_PREFERENCES]
  | some r =>
    have ht := optBound_getD _ DEFAULT_USER_PREFERENCES.simulation.timeStep _
      (by norm_num [DEFAULT_USER_PREFERENCES]) (h r rfl)
    exact ⟨ht.1, ht.2⟩

lemma resolveNotifications_inBounds (q : Option NotificationPatch)
    (h : OptBound q NotificationPatchInBounds) :
    NotificationsInBounds (resolveNotifications q) := by
  cases q with
  | none => norm_num [NotificationsInBounds, resolveNotifications, DEFAULT_USER_PREFERENCES]
  | some r =>
    have ht := optBound_getD _ DEFAULT_USER_PREFERENCES.notifications.alertThreshold _
      (by norm_num [DEFAULT_USER_PREFERENCES]) (h r rfl)
    exact ⟨ht.1, ht.2⟩

/-- Modelled from the spec: a partial input supplying only
scheduling.dailyStartTime and nothing else. -/
def onlyDailyStartTime (t : String) : UserPreferencesPatch :=
  ⟨some ⟨some t, none, none⟩, none, none, none, none⟩

/-- Modelled from the spec: the empty partial preference object. -/
def emptyPatch : UserPreferencesPatch := ⟨none, none, none, none, none⟩

/-- C9: preference resolution is total with a field-level merge: for every
partial input whose supplied fields respect their documented bounds, the
resolved record has all five groups populated with every field in bounds,
and an input supplying only scheduling.dailyStartTime keeps that value
while losing none of the remaining scheduling defaults nor the other four
groups' defaults. -/
theorem resolvePreferences_total_bounded :
    (∀ p : UserPreferencesPatch, PatchInBounds p → PrefsInBounds (resolvePreferences p)) ∧
    (∀ t : String,
      (resolvePreferences (onlyDailyStartTime t)).scheduling.dailyStartTime = t ∧
      (resolvePreferences (onlyDailyStartTime t)).scheduling.dailyEndTime = "23:00" ∧
      (resolvePreferences (onlyDailyStartTime t)).scheduling.timeSlotGranularity = 15 ∧
      (resolvePreferences (onlyDailyStartTime t)).prediction =
        DEFAULT_USER_PREFERENCES.prediction ∧
      (resolvePreferences (onlyDailyStartTime t)).adaptiveFrequency =
        DEFAULT_USER_PREFERENCES.adaptiveFrequency ∧
      (resolvePreferences (onlyDailyStartTime t)).simulation =
        DEFAULT_USER_PREFERENCES.simulation ∧
      (resolvePreferences (onlyDailyStartTime t)).notifications =
        DEFAULT_USER_PREFERENCES.notifications) := by
  constructor
  · rintro p ⟨h1, h2, h3, h4, h5⟩
    exact ⟨resolveScheduling_inBounds _ h1, resolvePrediction_inBounds _ h2,
      resolveAdaptiveFrequency_inBounds _ h3, resolveSimulation_inBounds _ h4,
      resolveNotifications_inBounds _ h5⟩
  · intro t
    exact ⟨rfl, rfl, rfl, rfl, rfl, rfl, rfl⟩

/-- Witness for C9 at the empty partial input, whose supplied fields
vacuously respect the bounds. -/
theorem resolvePreferences_total_bounded_witness :
    PrefsInBounds (resolvePreferences emptyPatch) :=
  resolvePreferences_total_bounded.1 emptyPatch
    (by refine ⟨?_, ?_, ?_, ?_, ?_⟩ <;> intro x hx <;> exact Option.noConfusion hx)
